import Mathlib

/-!
Verification of the WhatsApp webhook ingestion and conversation/message
state engine (an Odoo module).  The Python sources are shallowly embedded:

* JSON payloads become the inductive type Json; the Python dict/list
  accessors used by the code (d.get(k, default), x[0], iteration, the
  in operator, truthiness) become total Lean functions returning
  Except String _ where Python would raise (AttributeError, TypeError,
  IndexError).
* The ORM store (whatsapp.account / whatsapp.conversation /
  whatsapp.message rows) becomes an explicit Store record threaded
  through every operation.  A raised Python exception is an
  Except.error carrying the exception text; mutations performed before
  the raise are kept (the controller catches the exception and the
  transaction still commits), so every stateful operation returns
  Except String _ × Store.
* The provider HTTP client (requests.post / raise_for_status) is a
  parameter of type ProviderResult: success with the parsed 2xx JSON
  body, or failure carrying the text of the raised
  requests.exceptions.RequestException (timeout, transport error, or
  non-2xx via raise_for_status).
* Bus notifications (_notify_new_message / _notify_status_update)
  become values appended to a list.
-/

/-- A JSON value, as delivered to the webhook controller or returned by the
provider API. -/
inductive Json where
  | null
  | bool (b : Bool)
  | num (n : Int)
  | str (s : String)
  | arr (xs : List Json)
  | obj (fields : List (String × Json))

mutual

/-- Structural equality of JSON values (Python ==). -/
def jeq : Json → Json → Bool
  | .null, .null => true
  | .bool a, .bool b => a == b
  | .num a, .num b => a == b
  | .str a, .str b => a == b
  | .arr a, .arr b => jeqArr a b
  | .obj a, .obj b => jeqObj a b
  | _, _ => false

def jeqArr : List Json → List Json → Bool
  | [], [] => true
  | a :: as, b :: bs => jeq a b && jeqArr as bs
  | _, _ => false

def jeqObj : List (String × Json) → List (String × Json) → Bool
  | [], [] => true
  | (k, v) :: as, (l, w) :: bs => k == l && jeq v w && jeqObj as bs
  | _, _ => false

end

mutual

theorem jeq_refl : ∀ a : Json, jeq a a = true
  | .null => rfl
  | .bool b => by simp [jeq]
  | .num n => by simp [jeq]
  | .str s => by simp [jeq]
  | .arr xs => by simp [jeq, jeqArr_refl xs]
  | .obj fs => by simp [jeq, jeqObj_refl fs]

theorem jeqArr_refl : ∀ xs : List Json, jeqArr xs xs = true
  | [] => rfl
  | x :: xs => by simp [jeqArr, jeq_refl x, jeqArr_refl xs]

theorem jeqObj_refl : ∀ fs : List (String × Json), jeqObj fs fs = true
  | [] => rfl
  | (k, v) :: fs => by simp [jeqObj, jeq_refl v, jeqObj_refl fs]

end

mutual

theorem jeq_sound : ∀ {a b : Json}, jeq a b = true → a = b
  | .null, .null, _ => rfl
  | .bool a, .bool b, h => by simp [jeq] at h; simp [h]
  | .num a, .num b, h => by simp [jeq] at h; simp [h]
  | .str a, .str b, h => by simp [jeq] at h; simp [h]
  | .arr a, .arr b, h => by simp [jeq] at h; simp [jeqArr_sound h]
  | .obj a, .obj b, h => by simp [jeq] at h; simp [jeqObj_sound h]

theorem jeqArr_sound : ∀ {a b : List Json}, jeqArr a b = true → a = b
  | [], [], _ => rfl
  | a :: as, b :: bs, h => by
      simp [jeqArr] at h
      simp [jeq_sound h.1, jeqArr_sound h.2]

theorem jeqObj_sound : ∀ {a b : List (String × Json)}, jeqObj a b = true → a = b
  | [], [], _ => rfl
  | (k, v) :: as, (l, w) :: bs, h => by
      simp [jeqObj] at h
      obtain ⟨⟨h1, h2⟩, h3⟩ := h
      simp [h1, jeq_sound h2, jeqObj_sound h3]

end

instance : DecidableEq Json := fun a b =>
  if h : jeq a b = true then .isTrue (jeq_sound h)
  else .isFalse (fun he => h (he ▸ jeq_refl a))

/-- Python truthiness of a JSON value (None, False, 0, empty string, empty
list and empty dict are falsy). -/
def Json.truthy : Json → Bool
  | .null => false
  | .bool b => b
  | .num n => n != 0
  | .str s => s ≠ ""
  | .arr xs => !xs.isEmpty
  | .obj fs => !fs.isEmpty

/-- Python d.get(k, dflt): key lookup with a default on a dict; on any other
value the attribute access .get raises AttributeError. -/
def dictGet (j : Json) (k : String) (dflt : Json) : Except String Json :=
  match j with
  | .obj fs => .ok ((fs.lookup k).getD dflt)
  | _ => .error "AttributeError: object has no attribute get"

/-- Python d.get(k): lookup with default None. -/
def dictGetOpt (j : Json) (k : String) : Except String Json :=
  dictGet j k .null

/-- Python k in d on a dict (key membership); false is only ever used on
dicts in the embedded code. -/
def hasKey (j : Json) (k : String) : Bool :=
  match j with
  | .obj fs => fs.any (fun p => p.1 == k)
  | _ => false

/-- Python iteration (for x in j): lists yield their elements, strings yield
their characters as one-character strings, dicts yield their keys; other
values raise TypeError. -/
def iterElems : Json → Except String (List Json)
  | .arr xs => .ok xs
  | .str s => .ok (s.toList.map (fun c => Json.str (String.mk [c])))
  | .obj fs => .ok (fs.map (fun p => Json.str p.1))
  | _ => .error "TypeError: object is not iterable"

/-- Python j[0]: first element of a list (IndexError when empty), first
character of a string, KeyError/TypeError otherwise. -/
def pyIndex0 : Json → Except String Json
  | .arr [] => .error "IndexError: list index out of range"
  | .arr (x :: _) => .ok x
  | .str s =>
      match s.toList with
      | [] => .error "IndexError: string index out of range"
      | c :: _ => .ok (.str (String.mk [c]))
  | .obj _ => .error "KeyError: 0"
  | _ => .error "TypeError: object is not subscriptable"

def pyTitleGo : List Char → Bool → List Char
  | [], _ => []
  | c :: cs, prevAlpha =>
      (if c.isAlpha then (if prevAlpha then c.toLower else c.toUpper) else c)
        :: pyTitleGo cs c.isAlpha

/-- Python str.title(): upper-case the first letter of each alphabetic run,
lower-case the rest. -/
def pyTitle (s : String) : String := String.mk (pyTitleGo s.toList false)

mutual

/-- Python str(x) applied to a JSON value, as used inside f-strings. -/
def pyStr : Json → String
  | .null => "None"
  | .bool true => "True"
  | .bool false => "False"
  | .num n => toString n
  | .str s => s
  | .arr xs => "[" ++ pyStrArr xs ++ "]"
  | .obj fs => "\x7b" ++ pyStrObj fs ++ "\x7d"

def pyStrArr : List Json → String
  | [] => ""
  | [x] => pyStr x
  | x :: xs => pyStr x ++ ", " ++ pyStrArr xs

def pyStrObj : List (String × Json) → String
  | [] => ""
  | [(k, v)] => k ++ ": " ++ pyStr v
  | (k, v) :: fs => k ++ ": " ++ pyStr v ++ ", " ++ pyStrObj fs

end

instance : Repr Json := ⟨fun j _ => Std.Format.text (pyStr j)⟩

/-- A whatsapp.account row (the fields the embedded operations read). -/
structure Account where
  id : Nat
  name : String
  phone_number_id : String
  verify_token : String
  active : Bool
deriving DecidableEq, Repr

/-- A whatsapp.conversation row.  The phone_number is stored as the raw JSON
value the webhook supplied (a Char column at the storage layer). -/
structure Conversation where
  id : Nat
  account_id : Nat
  phone_number : Json
deriving DecidableEq, Repr

inductive Direction where
  | incoming
  | outgoing
deriving DecidableEq, Repr

inductive MsgStatus where
  | pending
  | sent
  | delivered
  | read
  | failed
deriving DecidableEq, Repr

/-- A whatsapp.message row.  Char/Text columns written straight from webhook
payload values keep the raw JSON value (null encodes SQL NULL / absent). -/
structure Message where
  id : Nat
  account_id : Nat
  conversation_id : Option Nat
  direction : Direction
  phone_number : Json
  message_type : Json
  content : Json
  media_url : Json
  whatsapp_message_id : Json
  status : MsgStatus
  error_message : Json
  timestamp : Nat
deriving DecidableEq, Repr

/-- The ORM store: the three tables the core operations touch, plus the id
sequences. -/
structure Store where
  accounts : List Account
  conversations : List Conversation
  messages : List Message
  next_conv_id : Nat
  next_msg_id : Nat
deriving DecidableEq, Repr

/-- Embeds whatsapp.conversation.get_or_create (whatsapp_conversation.py):
search for a conversation with the given account_id and phone_number
(first match), create one when absent, and return the conversation id (an
int, per the final return conversation.id) together with the updated
store. -/
def get_or_create (s : Store) (account_id : Nat) (phone_number : Json) :
    Nat × Store :=
  match s.conversations.find?
      (fun c => c.account_id == account_id && c.phone_number == phone_number) with
  | some c => (c.id, s)
  | none =>
      let c : Conversation :=
        { id := s.next_conv_id, account_id := account_id,
          phone_number := phone_number }
      (c.id, { s with conversations := s.conversations ++ [c],
                      next_conv_id := s.next_conv_id + 1 })

/-- Runs a sequence of get_or_create calls, threading the store. -/
def run_get_or_create_seq (s : Store) : List (Nat × Json) → Store
  | [] => s
  | (a, p) :: rest => run_get_or_create_seq (get_or_create s a p).2 rest

/-- Number of conversation rows stored for one (account, phone number)
pair. -/
def conv_key_count (s : Store) (a : Nat) (p : Json) : Nat :=
  (s.conversations.filter
      (fun c => c.account_id == a && c.phone_number == p)).length

/-- The uniqueness constraint unique(phone_number, account_id) of
whatsapp.conversation: at most one row per (account, phone number) pair. -/
def conv_unique (s : Store) : Prop := ∀ a p, conv_key_count s a p ≤ 1

/-- Embeds the type dispatch of process_webhook_message
(whatsapp_message.py lines 126-150): derives (message_type, content,
media_url) from the webhook message payload, raising exactly where the
Python raises (a non-dict payload, or a non-string type reaching the final
.title() branch). -/
def derive_inbound (message_data : Json) :
    Except String (Json × Json × Json) := do
  let mt ← dictGet message_data "type" (.str "text")
  if mt = .str "text" then
    let t ← dictGet message_data "text" (.obj [])
    let c ← dictGet t "body" (.str "")
    return (mt, c, .null)
  else if mt = .str "image" then
    let i ← dictGet message_data "image" (.obj [])
    let c ← dictGet i "caption" (.str "[Image]")
    let m ← dictGetOpt i "id"
    return (mt, c, m)
  else if mt = .str "document" then
    let d ← dictGet message_data "document" (.obj [])
    let c ← dictGet d "filename" (.str "[Document]")
    let m ← dictGetOpt d "id"
    return (mt, c, m)
  else if mt = .str "audio" then
    let a ← dictGet message_data "audio" (.obj [])
    let m ← dictGetOpt a "id"
    return (mt, .str "[Audio Message]", m)
  else if mt = .str "video" then
    let v ← dictGet message_data "video" (.obj [])
    let c ← dictGet v "caption" (.str "[Video]")
    let m ← dictGetOpt v "id"
    return (mt, c, m)
  else if mt = .str "location" then
    let l ← dictGet message_data "location" (.obj [])
    let nm ← dictGet l "name" (.str "")
    let la ← dictGetOpt l "latitude"
    let lo ← dictGetOpt l "longitude"
    return (mt, .str ("📍 " ++ pyStr nm ++ " (" ++ pyStr la ++ ", "
      ++ pyStr lo ++ ")"), .null)
  else if mt = .str "reaction" then
    let r ← dictGet message_data "reaction" (.obj [])
    let e ← dictGet r "emoji" (.str "")
    return (mt, .str ("Reaction: " ++ pyStr e), .null)
  else
    match mt with
    | .str t => return (mt, .str ("[" ++ pyTitle t ++ " message]"), .null)
    | _ => .error "AttributeError: object has no attribute title"

/-- Embeds whatsapp.message.process_webhook_message (whatsapp_message.py
lines 117-170).  After deriving the content and resolving the phone number
(contact wa_id, falling back to the message from field) it calls
get_or_create, which returns the conversation id as an int; the create
dict then evaluates conversation.id on that int, which raises
AttributeError — so the source can never reach self.create.  The
conversation created by get_or_create persists (the webhook controller
catches the exception and the transaction commits). -/
def process_webhook_message (account : Account)
    (message_data contact_data : Json) (_now : Nat) (s : Store) :
    Except String Message × Store :=
  match derive_inbound message_data with
  | .error e => (.error e, s)
  | .ok _ =>
      match (do
          let f ← dictGet message_data "from" (.str "")
          dictGet contact_data "wa_id" f) with
      | .error e => (.error e, s)
      | .ok phone =>
          let r := get_or_create s account.id phone
          (.error "AttributeError: int object has no attribute id", r.2)

/-- The status_map dict of process_status_update: provider status string to
canonical status; anything else is unmapped. -/
def status_map : Json → Option MsgStatus
  | .str "sent" => some .sent
  | .str "delivered" => some .delivered
  | .str "read" => some .read
  | .str "failed" => some .failed
  | _ => none

/-- The search of process_status_update: first message with the given
whatsapp_message_id for the given account. -/
def find_message (s : Store) (account_id : Nat) (mid : Json) :
    Option Message :=
  s.messages.find?
    (fun m => m.whatsapp_message_id == mid && m.account_id == account_id)

/-- Overwrite one stored message (record.write via field assignment). -/
def update_message (s : Store) (mid : Nat) (f : Message → Message) : Store :=
  { s with messages := s.messages.map (fun m => if m.id = mid then f m else m) }

/-- Embeds whatsapp.message.process_status_update (whatsapp_message.py
lines 172-206): read id and status from the status payload, return False
when either is falsy; search by (whatsapp_message_id, account); when found
and the status string is in status_map, overwrite the stored status
unconditionally, and on failed additionally store errors[0].message (with
default Unknown error) when the errors list is truthy.  Returns the
(updated) record, or none for the falsy-early-return and the
empty-search-result cases. -/
def process_status_update (account : Account) (status_data : Json)
    (s : Store) : Except String (Option Message) × Store :=
  match dictGetOpt status_data "id" with
  | .error e => (.error e, s)
  | .ok message_id =>
      match dictGetOpt status_data "status" with
      | .error e => (.error e, s)
      | .ok status =>
          if !message_id.truthy || !status.truthy then (.ok none, s)
          else
            match find_message s account.id message_id with
            | none => (.ok none, s)
            | some m =>
                match status_map status with
                | none => (.ok (some m), s)
                | some new_status =>
                    let s1 := update_message s m.id
                      (fun mm => { mm with status := new_status })
                    if status = .str "failed" then
                      match dictGet status_data "errors" (.arr []) with
                      | .error e => (.error e, s1)
                      | .ok errs =>
                          if errs.truthy then
                            match (do
                                let e0 ← pyIndex0 errs
                                dictGet e0 "message" (.str "Unknown error")) with
                            | .error e => (.error e, s1)
                            | .ok em =>
                                (.ok (some { m with status := new_status, error_message := em }),
                                 update_message s1 m.id
                                   (fun mm => { mm with error_message := em }))
                          else (.ok (some { m with status := new_status }), s1)
                    else (.ok (some { m with status := new_status }), s1)

/-- Outcome of the provider HTTP call made by send_text_message: a parsed
2xx JSON body, or the text of the requests.exceptions.RequestException
raised by requests.post / response.raise_for_status (timeout, transport
error, or non-2xx status). -/
inductive ProviderResult where
  | success (body : Json)
  | failure (e : String)
deriving DecidableEq, Repr

/-- The provider-message-id extraction of send_text_message
(whatsapp_account.py line 111): the first element of the messages list of
the body, defaulting to a list holding one empty dict, then its id key.
An empty messages list raises IndexError, which is not a RequestException
and therefore escapes the try/except. -/
def extract_message_id (body : Json) : Except String Json := do
  let msgs ← dictGet body "messages" (.arr [.obj []])
  let first ← pyIndex0 msgs
  dictGetOpt first "id"

/-- Embeds whatsapp.account.send_text_message (whatsapp_account.py lines
82-141).  On a RequestException a failed message row is created with
error_message = str(e) and returned normally; on success a sent message
row is created carrying the extracted provider message id (null when the
response body lacks one).  Only the id extraction itself can raise. -/
def send_text_message (acct : Account) (to_num message_text : String)
    (conversation_id : Option Nat) (result : ProviderResult) (now : Nat)
    (s : Store) : Except String Message × Store :=
  match result with
  | .failure e =>
      let m : Message :=
        { id := s.next_msg_id, account_id := acct.id,
          conversation_id := conversation_id, direction := .outgoing,
          phone_number := .str to_num, message_type := .str "text",
          content := .str message_text, media_url := .null,
          whatsapp_message_id := .null, status := .failed,
          error_message := .str e, timestamp := now }
      (.ok m, { s with messages := s.messages ++ [m],
                       next_msg_id := s.next_msg_id + 1 })
  | .success body =>
      match extract_message_id body with
      | .error e => (.error e, s)
      | .ok mid =>
          let m : Message :=
            { id := s.next_msg_id, account_id := acct.id,
              conversation_id := conversation_id, direction := .outgoing,
              phone_number := .str to_num, message_type := .str "text",
              content := .str message_text, media_url := .null,
              whatsapp_message_id := mid, status := .sent,
              error_message := .null, timestamp := now }
          (.ok m, { s with messages := s.messages ++ [m],
                           next_msg_id := s.next_msg_id + 1 })

/-- Response of the GET /whatsapp/webhook verification route
(webhook.py verify_webhook): returning the challenge string is an HTTP
200 whose body is the challenge verbatim; the other two cases are
('Forbidden', 403) and ('Bad Request', 400). -/
inductive VerifyResp where
  | challenge (c : Option String)
  | forbidden
  | badRequest
deriving DecidableEq, Repr

/-- Embeds verify_webhook (webhook.py lines 18-48).  The query parameters
hub.mode, hub.verify_token and hub.challenge are optional strings; the
guard is the Python condition mode == 'subscribe' and token (an empty
token is falsy), then the account search on (verify_token, active). -/
def verify_webhook (accounts : List Account)
    (mode token challenge : Option String) : VerifyResp :=
  match mode, token with
  | some "subscribe", some t =>
      if t = "" then .badRequest
      else
        match accounts.find? (fun a => a.verify_token == t && a.active) with
        | some _ => .challenge challenge
        | none => .forbidden
  | _, _ => .badRequest

/-- A bus notification published by the POST webhook controller
(_notify_new_message / _notify_status_update). -/
inductive Notif where
  | newMessage (account_id : Nat) (message : Message)
  | statusUpdate (account_id : Nat) (message : Message)
deriving DecidableEq, Repr

/-- The contact resolution of receive_webhook (webhook.py line 99):
next((c for c in contacts if c.get('wa_id') == message.get('from')), dict())
over an already materialised contact list; each candidate evaluates
c.get('wa_id') then message.get('from'), either of which can raise. -/
def find_contact_go (message : Json) : List Json → Except String Json
  | [] => .ok (.obj [])
  | c :: rest => do
      let w ← dictGetOpt c "wa_id"
      let f ← dictGetOpt message "from"
      if w = f then .ok c else find_contact_go message rest

/-- Contact resolution including the iteration of the contacts value,
which only happens when at least one message is processed. -/
def find_contact (message contactsJ : Json) : Except String Json := do
  let cs ← iterElems contactsJ
  find_contact_go message cs

/-- The for-message loop of receive_webhook (webhook.py lines 98-105):
resolve the contact, call process_webhook_message, and publish a
new-message notification when a record is returned; a raise aborts the
rest of the loop, keeping prior mutations and notifications. -/
def process_messages_loop (account : Account) (contactsJ : Json)
    (msgs : List Json) (now : Nat) (s : Store) (ns : List Notif) :
    Except String Unit × Store × List Notif :=
  match msgs with
  | [] => (.ok (), s, ns)
  | m :: rest =>
      match find_contact m contactsJ with
      | .error e => (.error e, s, ns)
      | .ok contact =>
          match process_webhook_message account m contact now s with
          | (.error e, s1) => (.error e, s1, ns)
          | (.ok mrec, s1) =>
              process_messages_loop account contactsJ rest now s1
                (ns ++ [Notif.newMessage account.id mrec])

/-- The for-status loop of receive_webhook (webhook.py lines 108-115):
call process_status_update and publish a status-update notification when
a record is returned. -/
def process_statuses_loop (account : Account) (sts : List Json) (s : Store)
    (ns : List Notif) : Except String Unit × Store × List Notif :=
  match sts with
  | [] => (.ok (), s, ns)
  | st :: rest =>
      match process_status_update account st s with
      | (.error e, s1) => (.error e, s1, ns)
      | (.ok none, s1) => process_statuses_loop account rest s1 ns
      | (.ok (some m), s1) =>
          process_statuses_loop account rest s1
            (ns ++ [Notif.statusUpdate account.id m])

/-- One change of receive_webhook (webhook.py lines 73-115): skip when the
declared field is not "messages", when the metadata has no truthy
phone_number_id, or when no active account matches it; otherwise process
value.messages then value.statuses. -/
def process_change (change : Json) (now : Nat) (s : Store)
    (ns : List Notif) : Except String Unit × Store × List Notif :=
  match dictGetOpt change "field" with
  | .error e => (.error e, s, ns)
  | .ok f =>
      if f ≠ .str "messages" then (.ok (), s, ns)
      else
        match (do
            let value ← dictGet change "value" (.obj [])
            let metadata ← dictGet value "metadata" (.obj [])
            let pnid ← dictGetOpt metadata "phone_number_id"
            pure (value, pnid)) with
        | .error e => (.error e, s, ns)
        | .ok (value, pnid) =>
            if !pnid.truthy then (.ok (), s, ns)
            else
              match s.accounts.find?
                  (fun a => Json.str a.phone_number_id == pnid && a.active) with
              | none => (.ok (), s, ns)
              | some account =>
                  match (do
                      let msgsJ ← dictGet value "messages" (.arr [])
                      let contactsJ ← dictGet value "contacts" (.arr [])
                      let msgs ← iterElems msgsJ
                      pure (contactsJ, msgs)) with
                  | .error e => (.error e, s, ns)
                  | .ok (contactsJ, msgs) =>
                      match process_messages_loop account contactsJ msgs now
                          s ns with
                      | (.error e, s1, ns1) => (.error e, s1, ns1)
                      | (.ok _, s1, ns1) =>
                          match (do
                              let stsJ ← dictGet value "statuses" (.arr [])
                              iterElems stsJ) with
                          | .error e => (.error e, s1, ns1)
                          | .ok sts =>
                              process_statuses_loop account sts s1 ns1

/-- The for-change loop; a raise in one change aborts the following
changes. -/
def process_changes_loop (cs : List Json) (now : Nat) (s : Store)
    (ns : List Notif) : Except String Unit × Store × List Notif :=
  match cs with
  | [] => (.ok (), s, ns)
  | c :: rest =>
      match process_change c now s ns with
      | (.error e, s1, ns1) => (.error e, s1, ns1)
      | (.ok _, s1, ns1) => process_changes_loop rest now s1 ns1

/-- One entry of receive_webhook (webhook.py lines 71-72):
entry.get('changes', []) then iterate. -/
def process_entry (entry : Json) (now : Nat) (s : Store) (ns : List Notif) :
    Except String Unit × Store × List Notif :=
  match (do
      let cJ ← dictGet entry "changes" (.arr [])
      iterElems cJ) with
  | .error e => (.error e, s, ns)
  | .ok cs => process_changes_loop cs now s ns

/-- The for-entry loop. -/
def process_entries_loop (es : List Json) (now : Nat) (s : Store)
    (ns : List Notif) : Except String Unit × Store × List Notif :=
  match es with
  | [] => (.ok (), s, ns)
  | e :: rest =>
      match process_entry e now s ns with
      | (.error er, s1, ns1) => (.error er, s1, ns1)
      | (.ok _, s1, ns1) => process_entries_loop rest now s1 ns1

/-- The payload normalisation of receive_webhook (webhook.py lines 63-68):
entries = data.get('entry', []); when that is falsy and the payload has
field and value keys, a single-entry single-change wrapper around the
whole payload is synthesised; afterwards the entries value is iterated. -/
def get_entries (data : Json) : Except String (List Json) := do
  let e ← dictGet data "entry" (.arr [])
  if !e.truthy && hasKey data "field" && hasKey data "value" then
    pure [Json.obj [("changes", Json.arr [data])]]
  else
    iterElems e

/-- Response of the POST /whatsapp/webhook route: 'OK' (HTTP 200) or
('Error', 500). -/
inductive PostResp where
  | ok
  | err
deriving DecidableEq, Repr

/-- Embeds receive_webhook (webhook.py lines 50-121): the whole body is
processed inside one try/except; any exception anywhere yields
('Error', 500), with mutations and notifications made before the raise
kept (the controller swallows the exception, so the transaction
commits). -/
def receive_webhook (data : Json) (now : Nat) (s : Store) :
    PostResp × Store × List Notif :=
  match get_entries data with
  | .error _ => (.err, s, [])
  | .ok es =>
      match process_entries_loop es now s [] with
      | (.ok _, s1, ns1) => (.ok, s1, ns1)
      | (.error _, s1, ns1) => (.err, s1, ns1)

/-- A flattened single-change webhook body: field/value at top level with
no entry wrapper. -/
def flat_body (v : Json) : Json :=
  .obj [("field", .str "messages"), ("value", v)]

/-- The enveloped equivalent of the same change. -/
def env_body (v : Json) : Json :=
  .obj [("entry", .arr [.obj [("changes", .arr [flat_body v])]])]

/-! Concrete fixtures: one active account, a webhook contact and message
for it, and stores with and without previously recorded messages. -/

def acct1 : Account :=
  { id := 1, name := "Main", phone_number_id := "555001",
    verify_token := "tok1", active := true }

def store0 : Store :=
  { accounts := [acct1], conversations := [], messages := [],
    next_conv_id := 1, next_msg_id := 1 }

def contact1 : Json :=
  .obj [("wa_id", .str "15551234567"),
        ("profile", .obj [("name", .str "Ann")])]

def inbound_text : Json :=
  .obj [("from", .str "15551234567"), ("id", .str "wamid.A1"),
        ("type", .str "text"), ("text", .obj [("body", .str "hello")])]

def conv1 : Conversation :=
  { id := 1, account_id := 1, phone_number := .str "15551234567" }

def msg_sent1 : Message :=
  { id := 1, account_id := 1, conversation_id := some 1,
    direction := .outgoing, phone_number := .str "15551234567",
    message_type := .str "text", content := .str "hi",
    media_url := .null, whatsapp_message_id := .str "wamid.DUP",
    status := .sent, error_message := .null, timestamp := 3 }

def store1 : Store :=
  { accounts := [acct1], conversations := [conv1], messages := [msg_sent1],
    next_conv_id := 2, next_msg_id := 2 }

/-- C1: the claim says process_webhook_message resolves/creates the
conversation and then inserts and returns an incoming Message with
status delivered and the arrival timestamp.  Evaluating the embedded code
at a well-formed inbound text message addressed to the resolved account
shows what actually happens: get_or_create runs (the conversation row
conv1 is created and persists), but because get_or_create returns the
conversation id as an int and the create dict then evaluates
conversation.id on that int, AttributeError is raised and no Message row
is ever inserted or returned. -/
theorem c1_inbound_recording_raises :
    process_webhook_message acct1 inbound_text contact1 5 store0 =
      (.error "AttributeError: int object has no attribute id",
       { store0 with conversations := [conv1], next_conv_id := 2 }) ∧
    ({ store0 with conversations := [conv1], next_conv_id := 2 } : Store).messages = [] :=
  ⟨rfl, rfl⟩

def inbound_dup : Json :=
  .obj [("from", .str "15551234567"), ("id", .str "wamid.DUP"),
        ("type", .str "text"), ("text", .obj [("body", .str "again")])]

/-- C2: the claim says an inbound message whose provider message id is
already recorded for the account is detected before insert and does not
create a second row.  Evaluating the embedded code on an inbound message
carrying the already-recorded id wamid.DUP (store1 holds msg_sent1 with
that id) shows the code has no such detection: it raises the same
AttributeError as every inbound message, before any insert or duplicate
check, leaving the store unchanged — inbound recording never succeeds at
all, and process_webhook_message contains no lookup by
whatsapp_message_id. -/
theorem c2_duplicate_inbound_raises_no_insert :
    process_webhook_message acct1 inbound_dup contact1 7 store1 =
      (.error "AttributeError: int object has no attribute id", store1) ∧
    store1.messages.filter
        (fun m => m.whatsapp_message_id == Json.str "wamid.DUP") = [msg_sent1] :=
  ⟨rfl, rfl⟩

def c3_value : Json :=
  .obj [("metadata", .obj [("phone_number_id", .str "555001")]),
        ("messages", .arr [inbound_text]),
        ("contacts", .arr [contact1]),
        ("statuses", .arr [.obj [("id", .str "wamid.DUP"),
                                 ("status", .str "delivered")]])]

def c3_body : Json := env_body c3_value

/-- C3 counterexample: c3_body is a perfectly parseable standard enveloped
delivery (second conjunct: get_entries succeeds) containing one change
with one inbound message and one sibling status event for the recorded
message wamid.DUP.  Processing the inbound message raises (the
AttributeError of process_webhook_message), and contrary to the claim
this aborts the sibling status item — msg_sent1 stays sent instead of
delivered, no notification is published — and the endpoint answers the
500 error response rather than 200/OK, even though the body was not
top-level unparseable. -/
theorem c3_item_failure_aborts_delivery :
    receive_webhook c3_body 9 store1 = (.err, store1, []) ∧
    get_entries c3_body =
      .ok [Json.obj [("changes", Json.arr [flat_body c3_value])]] :=
  ⟨rfl, rfl⟩

/-- C3 amended: items rejected by the explicit guard checks of
receive_webhook — a change whose field is not "messages", a change without
a truthy metadata.phone_number_id, and a change whose phone_number_id
matches no active account — are skipped without affecting sibling items
(the loop over the remaining changes proceeds on the same store and
notifications); but an exception raised while processing any single
change (including any of its message or status items) aborts the
remaining items, and the endpoint returns the 500 error response whenever
any exception was raised, not only for a top-level unparseable body. -/
theorem c3_guard_skips_and_exception_aborts :
    (∀ change rest now s ns f, dictGetOpt change "field" = .ok f →
        f ≠ .str "messages" →
        process_changes_loop (change :: rest) now s ns =
          process_changes_loop rest now s ns) ∧
    (∀ change rest now s ns value metadata pnid,
        dictGetOpt change "field" = .ok (.str "messages") →
        dictGet change "value" (.obj []) = .ok value →
        dictGet value "metadata" (.obj []) = .ok metadata →
        dictGetOpt metadata "phone_number_id" = .ok pnid →
        pnid.truthy = false →
        process_changes_loop (change :: rest) now s ns =
          process_changes_loop rest now s ns) ∧
    (∀ change rest now s ns value metadata pnid,
        dictGetOpt change "field" = .ok (.str "messages") →
        dictGet change "value" (.obj []) = .ok value →
        dictGet value "metadata" (.obj []) = .ok metadata →
        dictGetOpt metadata "phone_number_id" = .ok pnid →
        pnid.truthy = true →
        s.accounts.find?
          (fun a => Json.str a.phone_number_id == pnid && a.active) = none →
        process_changes_loop (change :: rest) now s ns =
          process_changes_loop rest now s ns) ∧
    (∀ c rest now s ns e s1 ns1,
        process_change c now s ns = (.error e, s1, ns1) →
        process_changes_loop (c :: rest) now s ns = (.error e, s1, ns1)) ∧
    (∀ data now s es e s1 ns1, get_entries data = .ok es →
        process_entries_loop es now s [] = (.error e, s1, ns1) →
        receive_webhook data now s = (.err, s1, ns1)) := by
  refine ⟨?_, ?_, ?_, ?_, ?_⟩
  · intro change rest now s ns f h1 h2
    simp [process_changes_loop, process_change, h1, h2]
  · intro change rest now s ns value metadata pnid h1 h2 h3 h4 h5
    simp [process_changes_loop, process_change, h1, h2, h3, h4, h5,
      bind, Except.bind, Functor.map, Except.map, pure, Except.pure]
  · intro change rest now s ns value metadata pnid h1 h2 h3 h4 h5 h6
    simp [process_changes_loop, process_change, h1, h2, h3, h4, h5, h6,
      bind, Except.bind, Functor.map, Except.map, pure, Except.pure]
  · intro c rest now s ns e s1 ns1 h
    simp [process_changes_loop, h]
  · intro data now s es e s1 ns1 h1 h2
    simp [receive_webhook, h1, h2]

/-- C3 witness: the guard-skip clause applied to a concrete statuses-field
change, and the abort clause applied to the concrete aborting delivery
c3_body. -/
theorem c3_guard_skips_witness :
    process_changes_loop [Json.obj [("field", Json.str "statuses")],
        Json.obj [("field", Json.str "x")]] 3 store1 [] =
      process_changes_loop [Json.obj [("field", Json.str "x")]] 3 store1 [] ∧
    receive_webhook c3_body 11 store1 = (.err, store1, []) :=
  ⟨c3_guard_skips_and_exception_aborts.1
      (Json.obj [("field", Json.str "statuses")])
      [Json.obj [("field", Json.str "x")]] 3 store1 []
      (Json.str "statuses") rfl (by decide),
   c3_guard_skips_and_exception_aborts.2.2.2.2 c3_body 11 store1
      [Json.obj [("changes", Json.arr [flat_body c3_value])]]
      "AttributeError: int object has no attribute id" store1 [] rfl rfl⟩

def msg_read1 : Message :=
  { msg_sent1 with whatsapp_message_id := .str "wamid.R", status := .read }

def store_read : Store :=
  { accounts := [acct1], conversations := [conv1], messages := [msg_read1],
    next_conv_id := 2, next_msg_id := 2 }

/-- C4 counterexample: the stored message msg_read1 has status read (first
conjunct); a reconciliation step for it carrying provider status
"delivered" moves the status backward to delivered (second conjunct), and
one carrying "failed" moves a read message to failed (third conjunct),
refuting both the monotone order pending-sent-delivered-read and the rule
that failed is reachable only from pending or sent. -/
theorem c4_status_moves_backward :
    msg_read1.status = .read ∧
    process_status_update acct1
        (.obj [("id", .str "wamid.R"), ("status", .str "delivered")])
        store_read =
      (.ok (some { msg_read1 with status := .delivered }),
       { store_read with messages := [{ msg_read1 with status := .delivered }] }) ∧
    process_status_update acct1
        (.obj [("id", .str "wamid.R"), ("status", .str "failed")])
        store_read =
      (.ok (some { msg_read1 with status := .failed }),
       { store_read with messages := [{ msg_read1 with status := .failed }] }) :=
  ⟨rfl, rfl, rfl⟩

/-- C4 amended: process_status_update overwrites the stored status with the
mapped canonical status unconditionally — the hypotheses say nothing
about the previously stored status, so the status can move backward (for
example read to delivered, as in the counterexample) and failed is
reachable from every status.  Stated for any recognized status event
whose errors list is absent/empty (the failed branch then skips the
error_message write, so all four statuses behave alike). -/
theorem c4_status_overwritten_unconditionally :
    ∀ account status_data s mid stj m ns,
      dictGetOpt status_data "id" = .ok mid →
      dictGetOpt status_data "status" = .ok stj →
      mid.truthy = true → stj.truthy = true →
      find_message s account.id mid = some m →
      status_map stj = some ns →
      dictGet status_data "errors" (.arr []) = .ok (.arr []) →
      process_status_update account status_data s =
        (.ok (some { m with status := ns }),
         update_message s m.id (fun mm => { mm with status := ns })) := by
  intro account status_data s mid stj m ns h1 h2 h3 h4 h5 h6 h7
  by_cases hf : stj = Json.str "failed"
  · subst hf
    have hns : ns = MsgStatus.failed := by simpa [status_map] using h6.symm
    subst hns
    have ht : (Json.str "failed").truthy = true := rfl
    have he : (Json.arr []).truthy = false := rfl
    simp [process_status_update, h1, h2, h3, ht, he, h5, h7, status_map]
  · simp [process_status_update, h1, h2, h3, h4, h5, h6, hf]

/-- C4 witness: the amended overwrite applied at a concrete input — a
"sent" status event for the read message msg_read1 (another backward
move). -/
theorem c4_overwrite_witness :
    process_status_update acct1
        (.obj [("id", .str "wamid.R"), ("status", .str "sent")]) store_read =
      (.ok (some { msg_read1 with status := .sent }),
       update_message store_read 1 (fun mm => { mm with status := .sent })) :=
  c4_status_overwritten_unconditionally acct1
    (.obj [("id", .str "wamid.R"), ("status", .str "sent")]) store_read
    (.str "wamid.R") (.str "sent") msg_read1 .sent
    rfl rfl rfl rfl rfl rfl rfl

/-- C5: a status event whose (truthy) provider message id is not recorded
for the account leaves the store unchanged and returns no record (first
conjunct), and a status event whose status string is not in status_map
leaves the stored message and the store unchanged — a no-op returning the
untouched record, not an error (second conjunct). -/
theorem c5_unknown_id_and_unmapped_status_noop :
    ∀ account status_data s mid stj,
      dictGetOpt status_data "id" = .ok mid →
      dictGetOpt status_data "status" = .ok stj →
      ((mid.truthy = true → stj.truthy = true →
          find_message s account.id mid = none →
          process_status_update account status_data s = (.ok none, s)) ∧
       (∀ m, mid.truthy = true → stj.truthy = true →
          find_message s account.id mid = some m →
          status_map stj = none →
          process_status_update account status_data s = (.ok (some m), s))) := by
  intro account status_data s mid stj h1 h2
  constructor
  · intro h3 h4 h5
    simp [process_status_update, h1, h2, h3, h4, h5]
  · intro m h3 h4 h5 h6
    simp [process_status_update, h1, h2, h3, h4, h5, h6]

/-- C5 witness: an unrecorded id wamid.NOPE and an unmapped status string
"weird" against the concrete store1 holding msg_sent1. -/
theorem c5_noop_witness :
    process_status_update acct1
        (.obj [("id", .str "wamid.NOPE"), ("status", .str "delivered")])
        store1 = (.ok none, store1) ∧
    process_status_update acct1
        (.obj [("id", .str "wamid.DUP"), ("status", .str "weird")])
        store1 = (.ok (some msg_sent1), store1) :=
  ⟨(c5_unknown_id_and_unmapped_status_noop acct1
      (.obj [("id", .str "wamid.NOPE"), ("status", .str "delivered")])
      store1 (.str "wamid.NOPE") (.str "delivered") rfl rfl).1 rfl rfl rfl,
   (c5_unknown_id_and_unmapped_status_noop acct1
      (.obj [("id", .str "wamid.DUP"), ("status", .str "weird")])
      store1 (.str "wamid.DUP") (.str "weird") rfl rfl).2 msg_sent1
      rfl rfl rfl rfl⟩

theorem get_or_create_twice (s : Store) (a : Nat) (p : Json) :
    get_or_create (get_or_create s a p).2 a p =
      ((get_or_create s a p).1, (get_or_create s a p).2) := by
  unfold get_or_create
  cases hf : s.conversations.find?
      (fun c => c.account_id == a && c.phone_number == p) with
  | some c => simp [hf]
  | none => simp [hf, List.find?_append]

theorem get_or_create_conv_unique (s : Store) (a : Nat) (p : Json)
    (h : conv_unique s) : conv_unique (get_or_create s a p).2 := by
  unfold get_or_create
  cases hf : s.conversations.find?
      (fun c => c.account_id == a && c.phone_number == p) with
  | some c => simpa using h
  | none =>
      intro a1 p1
      have hall := List.find?_eq_none.mp hf
      simp only [conv_key_count, List.filter_append, List.length_append]
      by_cases hm : (a == a1 && p == p1) = true
      · obtain ⟨ha, hp⟩ : a = a1 ∧ p = p1 := by
          simpa [Bool.and_eq_true, beq_iff_eq] using hm
        subst ha
        subst hp
        have h0 : s.conversations.filter
            (fun c => c.account_id == a && c.phone_number == p) = [] :=
          List.filter_eq_nil_iff.mpr (fun c hc => by simpa using hall c hc)
        simp [h0, List.filter]
      · have hone : (List.filter
            (fun c => c.account_id == a1 && c.phone_number == p1)
            [({ id := s.next_conv_id, account_id := a,
                phone_number := p } : Conversation)]) = [] := by
          simp only [List.filter_eq_nil_iff]
          intro c hc
          simp only [List.mem_singleton] at hc
          subst hc
          simpa using hm
        simpa [hone] using h a1 p1

theorem run_seq_conv_unique :
    ∀ (calls : List (Nat × Json)) (s : Store), conv_unique s →
      conv_unique (run_get_or_create_seq s calls)
  | [], _, h => h
  | (a, p) :: rest, s, h =>
      run_seq_conv_unique rest _ (get_or_create_conv_unique s a p h)

/-- C6: get_or_create is idempotent — a second call with the same
(account, phone number) returns the same conversation id and leaves the
store untouched — and any sequence of get_or_create calls preserves the
invariant that at most one conversation row exists per (account, phone
number) pair. -/
theorem c6_get_or_create_idempotent_unique :
    (∀ s a p, get_or_create (get_or_create s a p).2 a p =
        ((get_or_create s a p).1, (get_or_create s a p).2)) ∧
    (∀ s calls, conv_unique s →
        conv_unique (run_get_or_create_seq s calls)) :=
  ⟨get_or_create_twice, fun s calls h => run_seq_conv_unique calls s h⟩

/-- C6 witness: both clauses at concrete inputs — a repeated call for a
fresh phone number on store0, and a call sequence with a duplicated key
starting from the empty-conversation store0 (whose invariant is
immediate). -/
theorem c6_witness :
    get_or_create (get_or_create store0 1 (Json.str "15550002222")).2 1
        (Json.str "15550002222") =
      ((get_or_create store0 1 (Json.str "15550002222")).1,
       (get_or_create store0 1 (Json.str "15550002222")).2) ∧
    conv_unique (run_get_or_create_seq store0
      [(1, Json.str "a"), (2, Json.str "a"), (1, Json.str "a")]) :=
  ⟨c6_get_or_create_idempotent_unique.1 store0 1 (Json.str "15550002222"),
   c6_get_or_create_idempotent_unique.2 store0
     [(1, Json.str "a"), (2, Json.str "a"), (1, Json.str "a")]
     (fun a p => by simp [conv_key_count, store0])⟩

/-- C7: when the provider request raises a RequestException (timeout,
transport error, or non-2xx via raise_for_status) carrying a non-empty
description, send_text_message returns normally (no exception: the result
is Except.ok) with exactly one new Message row appended, whose status is
failed and whose error detail is the exception text, truthy hence
non-empty; conversations are untouched. -/
theorem c7_failed_send_recorded :
    ∀ acct to_num message_text conversation_id e now s, e ≠ "" →
      ∃ m s2,
        send_text_message acct to_num message_text conversation_id
            (.failure e) now s = (.ok m, s2) ∧
        s2.messages = s.messages ++ [m] ∧
        s2.conversations = s.conversations ∧
        m.status = .failed ∧
        m.error_message = .str e ∧
        m.error_message.truthy = true := by
  intro acct to_num message_text conversation_id e now s h
  refine ⟨_, _, rfl, rfl, rfl, rfl, rfl, ?_⟩
  simp [Json.truthy, h]

/-- C7 witness: a concrete timed-out send against store0 records one
failed message with the timeout text as error detail. -/
theorem c7_failed_send_witness :
    ∃ m s2,
      send_text_message acct1 "15551234567" "yo" none
          (.failure "Connection timed out") 4 store0 = (.ok m, s2) ∧
      s2.messages = store0.messages ++ [m] ∧
      s2.conversations = store0.conversations ∧
      m.status = .failed ∧
      m.error_message = .str "Connection timed out" ∧
      m.error_message.truthy = true :=
  c7_failed_send_recorded acct1 "15551234567" "yo" none
    "Connection timed out" 4 store0 (by decide)

/-- C8: a flattened single-change webhook body (field/value at top level,
no entry wrapper) is processed by receive_webhook exactly like the
enveloped equivalent wrapping the same change object: same response, same
final store, same notifications, for every change value and every
starting store. -/
theorem c8_flattened_equals_enveloped :
    ∀ (v : Json) (now : Nat) (s : Store),
      receive_webhook (flat_body v) now s =
        receive_webhook (env_body v) now s :=
  fun _ _ _ => rfl

/-- C9: for the GET verification route, under the model invariant that
active accounts have a non-empty verify token (the field is required):
when hub.mode is "subscribe" and hub.verify_token is supplied and equals
an active account's verify token, the response is the 200 challenge
response carrying hub.challenge verbatim; when mode is "subscribe" and a
non-empty token matches no active account, the response is 403; otherwise
(mode not "subscribe", or token absent or empty — the code treats an
empty supplied token as absent) the response is 400. -/
theorem c9_verify_webhook_responses :
    ∀ (accounts : List Account) (mode token challenge : Option String),
      (∀ a ∈ accounts, a.active = true → a.verify_token ≠ "") →
      ((∀ t, mode = some "subscribe" → token = some t →
          (∃ a ∈ accounts, a.active = true ∧ a.verify_token = t) →
          verify_webhook accounts mode token challenge =
            .challenge challenge) ∧
       (∀ t, mode = some "subscribe" → token = some t → t ≠ "" →
          (¬ ∃ a ∈ accounts, a.active = true ∧ a.verify_token = t) →
          verify_webhook accounts mode token challenge = .forbidden) ∧
       ((mode ≠ some "subscribe" ∨ token = none ∨ token = some "") →
          verify_webhook accounts mode token challenge = .badRequest)) := by
  intro accounts mode token challenge hreq
  refine ⟨?_, ?_, ?_⟩
  · rintro t rfl rfl ⟨a, ha, hact, htok⟩
    have ht : t ≠ "" := htok ▸ hreq a ha hact
    have hs : (accounts.find?
        (fun x => x.verify_token == t && x.active)).isSome = true := by
      rw [List.find?_isSome]
      exact ⟨a, ha, by simp [htok, hact]⟩
    cases hfind : accounts.find? (fun x => x.verify_token == t && x.active) with
    | none => rw [hfind] at hs; simp at hs
    | some b => simp [verify_webhook, ht, hfind]
  · rintro t rfl rfl ht hne
    have hfind : accounts.find?
        (fun x => x.verify_token == t && x.active) = none := by
      rw [List.find?_eq_none]
      intro x hx hpx
      simp only [Bool.and_eq_true, beq_iff_eq] at hpx
      exact hne ⟨x, hx, hpx.2, hpx.1⟩
    simp [verify_webhook, ht, hfind]
  · intro h3
    unfold verify_webhook
    split
    · rcases h3 with h | h | h
      · simp at h
      · simp at h
      · rename_i t
        simp only [Option.some.injEq] at h
        simp [h]
    · rfl

/-- C9 witness: the three branches at concrete inputs over the account
list containing acct1 (verify token tok1). -/
theorem c9_verify_witness :
    verify_webhook [acct1] (some "subscribe") (some "tok1") (some "ch") =
      .challenge (some "ch") ∧
    verify_webhook [acct1] (some "subscribe") (some "nope") (some "ch") =
      .forbidden ∧
    verify_webhook [acct1] (some "other") (some "tok1") (some "ch") =
      .badRequest :=
  ⟨(c9_verify_webhook_responses [acct1] (some "subscribe") (some "tok1")
      (some "ch") (by decide)).1 "tok1" rfl rfl (by decide),
   (c9_verify_webhook_responses [acct1] (some "subscribe") (some "nope")
      (some "ch") (by decide)).2.1 "nope" rfl rfl (by decide) (by decide),
   (c9_verify_webhook_responses [acct1] (some "other") (some "tok1")
      (some "ch") (by decide)).2.2 (Or.inl (by decide))⟩

theorem truthy_ne_null {j : Json} (h : j.truthy = true) : j ≠ .null := by
  intro he
  subst he
  simp [Json.truthy] at h

theorem find_message_id {s : Store} {aid : Nat} {mid : Json} {m : Message}
    (h : find_message s aid mid = some m) : m.whatsapp_message_id = mid := by
  unfold find_message at h
  have hp := List.find?_some h
  simp only [Bool.and_eq_true, beq_iff_eq] at hp
  exact hp.1

/-- C10 counterexample: the claim says every 2xx response whose JSON lacks
a messages[0].id still yields a sent Message with a null provider id.  A
2xx response whose messages key holds an empty list lacks messages[0].id,
yet indexing the first element of that empty list raises IndexError —
which is not a RequestException, so it escapes send_text_message — and no
Message row is created at all. -/
theorem c10_empty_messages_list_raises :
    send_text_message acct1 "15551234567" "yo" none
        (.success (.obj [("messages", .arr [])])) 4 store0 =
      (.error "IndexError: list index out of range", store0) := rfl

/-- C10 amended: when the 2xx response body's id extraction
(messages list defaulting to one empty dict, first element, id key)
evaluates to None — the
messages key is absent, or its first element is a dict without an id —
exactly one Message is appended with status sent and a null provider
message id (first conjunct), and status reconciliation can never return
or update a message whose stored provider id is null, because it requires
a truthy event id and matches it against the stored id (second conjunct);
but when the response carries messages as an empty list the extraction
raises IndexError, which escapes send_text_message and creates no row
(the counterexample). -/
theorem c10_null_id_sent_and_unmatchable :
    (∀ acct to_num message_text conversation_id body now s,
        extract_message_id body = .ok .null →
        ∃ m s2,
          send_text_message acct to_num message_text conversation_id
              (.success body) now s = (.ok m, s2) ∧
          s2.messages = s.messages ++ [m] ∧
          m.status = .sent ∧ m.whatsapp_message_id = .null) ∧
    (∀ account status_data s m s2,
        process_status_update account status_data s = (.ok (some m), s2) →
        m.whatsapp_message_id ≠ .null) := by
  constructor
  · intro acct to_num message_text conversation_id body now s h
    simp only [send_text_message, h]
    exact ⟨_, _, rfl, rfl, rfl, rfl⟩
  · intro account status_data s m s2 h
    unfold process_status_update at h
    split at h
    · simp at h
    · rename_i mid heq1
      split at h
      · simp at h
      · rename_i stj heq2
        split at h
        · simp at h
        · rename_i hcond
          have hmid : mid.truthy = true := by
            cases hmt : mid.truthy with
            | true => rfl
            | false => exact absurd (by simp [hmt]) hcond
          split at h
          · simp at h
          · rename_i m0 hfind
            have hid : m0.whatsapp_message_id = mid := find_message_id hfind
            have hne : m0.whatsapp_message_id ≠ .null := by
              rw [hid]
              exact truthy_ne_null hmid
            split at h
            · simp only [Prod.mk.injEq, Except.ok.injEq,
                Option.some.injEq] at h
              exact h.1 ▸ hne
            · split at h
              · split at h
                · simp at h
                · split at h
                  · split at h
                    · simp at h
                    · simp only [Prod.mk.injEq, Except.ok.injEq,
                        Option.some.injEq] at h
                      obtain ⟨hm, _⟩ := h
                      subst hm
                      simpa using hne
                  · simp only [Prod.mk.injEq, Except.ok.injEq,
                      Option.some.injEq] at h
                    obtain ⟨hm, _⟩ := h
                    subst hm
                    simpa using hne
              · simp only [Prod.mk.injEq, Except.ok.injEq,
                  Option.some.injEq] at h
                obtain ⟨hm, _⟩ := h
                subst hm
                simpa using hne

/-- C10 witness: a 2xx body whose messages[0] is an empty dict yields a
sent message with null provider id, and the concrete reconciliation
return of msg_sent1 (store1) indeed carries a non-null provider id. -/
theorem c10_null_id_witness :
    (∃ m s2,
      send_text_message acct1 "15551234567" "yo" none
          (.success (.obj [("messages", .arr [.obj []])])) 4 store0 =
        (.ok m, s2) ∧
      s2.messages = store0.messages ++ [m] ∧
      m.status = .sent ∧ m.whatsapp_message_id = .null) ∧
    msg_sent1.whatsapp_message_id ≠ Json.null :=
  ⟨c10_null_id_sent_and_unmatchable.1 acct1 "15551234567" "yo" none
      (.obj [("messages", .arr [.obj []])]) 4 store0 rfl,
   c10_null_id_sent_and_unmatchable.2 acct1
      (.obj [("id", .str "wamid.DUP"), ("status", .str "weird")])
      store1 msg_sent1 store1 rfl⟩
